import Mathlib

/-!
Shallow embedding of the `langgraph-start` repository (src/day4.py,
src/openai-playwright.py, src/logger.py, src/file-system.py).

The reasoning engine, the HTTP layer and the browser are external
collaborators; they are modelled as oracle functions passed in explicitly.
Everything the repository itself computes (prompt construction, the
evaluator decision rule, the graph wiring, the news-url resolver, the
fixed tool confirmations) is translated directly from the Python source.
-/

namespace LangGraphStart

/-! ## Python string primitives (ASCII fragment used by the sources) -/

/-- Whitespace characters removed by Python `str.strip()` (ASCII subset;
all strings occurring in the sources and claims are ASCII). -/
def isPyWhitespace (c : Char) : Bool :=
  c == ' ' || c == '\t' || c == '\n' || c == '\r' || c == '\x0b' || c == '\x0c'

/-- Python `str.strip()`: drop leading and trailing whitespace. -/
def pyStrip (s : String) : String :=
  String.mk (((s.toList.dropWhile isPyWhitespace).reverse.dropWhile isPyWhitespace).reverse)

/-- ASCII lower-casing of one character, as Python `str.lower()` does on ASCII. -/
def lowerChar (c : Char) : Char :=
  if 'A' ≤ c ∧ c ≤ 'Z' then Char.ofNat (c.toNat + 32) else c

/-- Python `str.lower()` (ASCII fragment). -/
def pyLower (s : String) : String :=
  String.mk (s.toList.map lowerChar)

/-- Does the character list `s` start with the list `pat`? -/
def startsWithL : List Char → List Char → Bool
  | _, [] => true
  | [], _ :: _ => false
  | c :: cs, p :: ps => c == p && startsWithL cs ps

/-- Substring containment on character lists (Python `pat in s`). -/
def containsL : List Char → List Char → Bool
  | [], pat => pat.isEmpty
  | s@(_ :: rest), pat => startsWithL s pat || containsL rest pat

/-- Python `pat in s` on strings. -/
def containsStr (s pat : String) : Bool :=
  containsL s.toList pat.toList

/-- Rendering of an optional string inside a Python f-string:
`None` prints as the text "None". -/
def pyShowOptStr : Option String → String
  | none => "None"
  | some t => t

/-! ## Evaluator decision rule (src/day4.py lines 107-139) -/

/-- The decision the evaluator applies to the raw engine output
(src/day4.py lines 132-139): normalize with `strip().lower()`, set
`redo := true` with `evaluation := text` on an exact match with "retry",
otherwise `redo := false` with `evaluation := "ok"`. -/
def evalVerdict (raw : String) : Bool × String :=
  let text := pyLower (pyStrip raw)
  if text = "retry" then (true, text) else (false, "ok")

/-! ## Data model (src/day4.py lines 52-57)

`State` is a TypedDict with `messages` (merged by the `add_messages`
reducer, which appends fresh messages) plus the scratch fields
`plan`, `worker_output`, `evaluation`, `redo`. -/

/-- A tool-call request attached to an assistant message. -/
structure ToolCallReq where
  id : String
  name : String
  args : String
deriving DecidableEq

/-- A conversation message: role, content and any pending tool-call
requests ( `tool_calls` on a LangChain AI message). -/
structure Message where
  role : String
  content : String
  tool_calls : List ToolCallReq := []
deriving DecidableEq

/-- The graph state of src/day4.py lines 52-57. -/
structure TState where
  messages : List Message
  plan : Option String
  worker_output : Option String
  evaluation : Option String
  redo : Option Bool
deriving DecidableEq

/-- The empty initial state of a fresh thread. -/
def emptyState : TState :=
  { messages := [], plan := none, worker_output := none,
    evaluation := none, redo := none }

/-- Default message used to read `messages[-1]` (Python raises on an empty
list; every run below keeps `messages` non-empty). -/
def defaultMsg : Message := { role := "", content := "" }

/-- `messages[-1]`, totalised with `defaultMsg`. -/
def lastMsgD (msgs : List Message) : Message :=
  msgs.getLastD defaultMsg

/-- The external collaborators of src/day4.py: the bare reasoning engine
(`llm.invoke`), the tool-bound engine (`llm_with_tools.invoke`), and the
registered tool implementations, modelled as oracle functions. -/
structure Oracles where
  plannerC : String → String
  workerC : List (String × String) → Message
  evalC : String → String
  toolImpl : String → String → String

/-! ## Node functions (src/day4.py lines 66-139) -/

/-- The planner prompt f-string (src/day4.py lines 73-80). -/
def plannerPrompt (user_message : String) : String :=
  "\nYou are a task planner.\n\nUser request: " ++ user_message ++
  "\n\nBreak the task into a SHORT actionable plan.\nNo bullet points. Just a short text.\n"

/-- The planner node (src/day4.py lines 66-82): reads `messages[-1].content`,
prompts the engine, stores the result in `plan`. -/
def planner (o : Oracles) (s : TState) : TState :=
  let user_message := (lastMsgD s.messages).content
  { s with plan := some (o.plannerC (plannerPrompt user_message)) }

/-- The worker prompt (src/day4.py lines 94-97): a system message and a
user message built from the plan alone. -/
def workerPrompt (plan : String) : List (String × String) :=
  [("system", "You are a worker that executes tasks."),
   ("user", "Follow this plan:\n" ++ plan)]

/-- The exact input the worker hands to the tool-bound engine: it is built
from `state["plan"]` only (src/day4.py lines 92-97). -/
def workerInput (s : TState) : List (String × String) :=
  workerPrompt (pyShowOptStr s.plan)

/-- The worker node (src/day4.py lines 86-104): invokes the tool-bound
engine on `workerInput`, stores the content in `worker_output` and appends
the result message to the history. -/
def worker (o : Oracles) (s : TState) : TState :=
  let result := o.workerC (workerInput s)
  { s with worker_output := some result.content,
           messages := s.messages ++ [result] }

/-- The evaluator prompt f-string (src/day4.py lines 116-129). -/
def evaluatorPrompt (user_question output : String) : String :=
  "\nYou are an evaluator.\n\nUser asked: " ++ user_question ++
  "\nWorker answered: " ++ output ++
  "\n\nRespond with EXACTLY one word:\n\"retry\"  — if the worker answer is wrong/incomplete\n\"ok\"     — if the worker answer is correct\n\nNO explanations.\nNO punctuation.\nNO extra words.\n"

/-- The exact input the evaluator hands to the engine (src/day4.py lines
113-129): `user_question` is read from `messages[-1].content` and `output`
from `worker_output`. -/
def evaluatorInput (s : TState) : String :=
  evaluatorPrompt (lastMsgD s.messages).content (pyShowOptStr s.worker_output)

/-- The evaluator node (src/day4.py lines 107-139): prompts the engine on
`evaluatorInput` and applies `evalVerdict` to the raw output. -/
def evaluator (o : Oracles) (s : TState) : TState :=
  let v := evalVerdict (o.evalC (evaluatorInput s))
  { s with redo := some v.fst, evaluation := some v.snd }

/-- The prebuilt ToolNode (src/day4.py line 146): executes the tool-call
requests of `messages[-1]` in order and appends one tool-result message
per request. -/
def toolsNode (o : Oracles) (s : TState) : TState :=
  let tcs := (lastMsgD s.messages).tool_calls
  { s with messages :=
      s.messages ++ tcs.map (fun tc => { role := "tool", content := o.toolImpl tc.name tc.args }) }

/-! ## Graph wiring (src/day4.py lines 142-178) -/

/-- The nodes of the compiled graph, plus the virtual START / END nodes. -/
inductive Node
  | start
  | plannerN
  | workerN
  | toolsN
  | evaluatorN
  | fin
deriving DecidableEq

/-- The prebuilt `tools_condition` (src/day4.py line 154): returns "tools"
when `messages[-1]` carries pending tool-call requests, "__end__" otherwise. -/
def tools_condition (s : TState) : String :=
  if (lastMsgD s.messages).tool_calls = [] then "__end__" else "tools"

/-- The conditional-edge target out of the worker, through the mapping
`{"tools": "tools", "__end__": "evaluator"}` (src/day4.py lines 152-156). -/
def workerCondNext (s : TState) : Node :=
  if tools_condition s = "tools" then Node.toolsN else Node.evaluatorN

/-- ALL successors scheduled after the worker node: the conditional edge of
lines 152-156 AND the unconditional `add_edge("worker", "evaluator")` of
src/day4.py line 161, which remains in the graph alongside it. -/
def workerSuccessors (s : TState) : List Node :=
  [workerCondNext s, Node.evaluatorN]

/-- The evaluator routing lambda (src/day4.py line 166). -/
def evaluatorRoute (s : TState) : String :=
  if s.redo = some true then "retry" else "finish"

/-- The conditional-edge target out of the evaluator, through the mapping
`{"retry": "worker", "finish": END}` (src/day4.py lines 164-168). -/
def evaluatorNext (s : TState) : Node :=
  if evaluatorRoute s = "retry" then Node.workerN else Node.fin

/-- One node execution. START and END execute nothing. -/
def execNode (o : Oracles) : Node → TState → TState
  | Node.plannerN, s => planner o s
  | Node.workerN, s => worker o s
  | Node.toolsN, s => toolsNode o s
  | Node.evaluatorN, s => evaluator o s
  | Node.start, s => s
  | Node.fin, s => s

/-- Sequential successor function of the graph (src/day4.py lines 149-168),
evaluated on the state AFTER the node ran. Out of the worker it follows the
conditional edge; this coalesces the duplicate unconditional edge of line
161 and is therefore exact for executions in which the worker emits no
tool-call requests (both out-edges then target the evaluator). -/
def seqNext (node : Node) (s : TState) : Node :=
  match node with
  | Node.start => Node.plannerN
  | Node.plannerN => Node.workerN
  | Node.workerN => workerCondNext s
  | Node.toolsN => Node.workerN
  | Node.evaluatorN => evaluatorNext s
  | Node.fin => Node.fin

/-- Fatal errors a turn can abort with. -/
inductive RunError
  | recursionLimit
deriving DecidableEq

/-- Bounded execution of the graph: runs supersteps until END or until the
step budget is exhausted, in which case the turn aborts with
`RunError.recursionLimit` (the GraphRecursionError of the engine). Returns
the outcome together with the number of node executions performed. -/
def runFrom (o : Oracles) : Nat → Node → TState → Except RunError TState × Nat
  | _, Node.fin, s => (Except.ok s, 0)
  | 0, _, _ => (Except.error RunError.recursionLimit, 0)
  | n + 1, node, s =>
    let s2 := execNode o node s
    let r := runFrom o n (seqNext node s2) s2
    (r.fst, r.snd + 1)

/-- The configured step budget (src/day4.py line 177:
`"recursion_limit": 100`). -/
def recursion_limit : Nat := 100

/-- The input merge performed by `graph.invoke({"messages": [user]})`
(src/day4.py lines 181-184): the user message is appended by the
`add_messages` reducer and the scratch fields carry over. -/
def initUpdate (s : TState) (userMsg : String) : TState :=
  { s with messages := s.messages ++ [{ role := "user", content := userMsg }] }

/-- One `graph.invoke` turn with a step budget: append the user message,
then run from the entry edge START → planner. -/
def invokeTurn (o : Oracles) (limit : Nat) (userMsg : String) (s : TState) :
    Except RunError TState × Nat :=
  runFrom o limit Node.plannerN (initUpdate s userMsg)

/-- The conversational entry point (src/day4.py lines 180-186): invoke the
graph under the configured budget and return `result["messages"][-1].content`. -/
def gradio_chat (o : Oracles) (s : TState) (message : String) : Except RunError String :=
  match (invokeTurn o recursion_limit message s).fst with
  | Except.ok s2 => Except.ok (lastMsgD s2.messages).content
  | Except.error e => Except.error e

/-! ## News-url resolver (src/openai-playwright.py lines 221-235) -/

/-- The `NEWS_SITES` dict in insertion order (src/openai-playwright.py
lines 221-227). -/
def NEWS_SITES : List (String × String) :=
  [("cnn", "https://edition.cnn.com/world"),
   ("cnn latest", "https://edition.cnn.com/world"),
   ("bbc", "https://www.bbc.com/news"),
   ("bbc latest", "https://www.bbc.com/news"),
   ("bbc news", "https://www.bbc.com/news")]

/-- `resolve_news_url` (src/openai-playwright.py lines 229-235): lower-case
the query, return the url of the first key contained in it, else "UNKNOWN". -/
def resolve_news_url (query : String) : String :=
  let q := pyLower query
  match NEWS_SITES.find? (fun kv => containsStr q kv.fst) with
  | some kv => kv.snd
  | none => "UNKNOWN"

/-! ## Page fetch (src/openai-playwright.py lines 243-255) -/

/-- The navigation timeout passed to `page.goto(url, timeout=20000)`
(src/openai-playwright.py line 249), in milliseconds. -/
def goto_timeout_ms : Nat := 20000

/-- `web_browse` (src/openai-playwright.py lines 243-255): the whole
browser session is wrapped in try/except, so the call either yields the
page HTML or an exception message `e`; the except arm returns the error
text `f"Playwright error: {str(e)}"` instead of raising. The browser
session (including a goto timeout) is modelled as its outcome. -/
def web_browse (nav : Except String String) : String :=
  match nav with
  | Except.ok html => html
  | Except.error e => "Playwright error: " ++ e

/-! ## Push notification (src/day4.py lines 35-41, src/logger.py lines 41-51) -/

/-- The response of a completed HTTP POST. -/
structure HttpResponse where
  status : Nat
  body : String

/-- `push_tool` (src/day4.py lines 35-41): POST to the pushover endpoint,
discard the response, return a fixed confirmation. -/
def push_tool (post : String → HttpResponse) (text : String) : String :=
  let _resp := post text
  "Push notification sent."

/-- `push` (src/logger.py lines 41-51): POST to the pushover endpoint,
discard the response, return "success". -/
def push (post : String → HttpResponse) (text : String) : String :=
  let _resp := post text
  "success"

/-! ## Concrete oracle instances and states used to exercise the model -/

/-- A constant engine that always answers "retry" to the evaluator and
never requests tool calls. -/
def oRetry : Oracles :=
  { plannerC := fun _ => "plan",
    workerC := fun _ => { role := "assistant", content := "draft" },
    evalC := fun _ => "retry",
    toolImpl := fun _ _ => "tool result" }

/-- A constant engine that always answers "ok" to the evaluator and never
requests tool calls. -/
def oOk : Oracles :=
  { plannerC := fun _ => "plan",
    workerC := fun _ => { role := "assistant", content := "answer" },
    evalC := fun _ => "ok",
    toolImpl := fun _ _ => "tool result" }

/-- The state reached by `invokeTurn oOk 100 "hi" emptyState`. -/
def s4Final : TState :=
  { messages := [{ role := "user", content := "hi" },
                 { role := "assistant", content := "answer" }],
    plan := some "plan", worker_output := some "answer",
    evaluation := some "ok", redo := some false }

/-- The state reached by `invokeTurn oOk 100 "hello" emptyState`. -/
def s5Final : TState :=
  { messages := [{ role := "user", content := "hello" },
                 { role := "assistant", content := "answer" }],
    plan := some "plan", worker_output := some "answer",
    evaluation := some "ok", redo := some false }

/-- A state whose latest assistant message carries a pending tool-call
request, as after a worker pass that asked for a search. -/
def s2ToolCall : TState :=
  { messages := [{ role := "user", content := "search for news" },
                 { role := "assistant", content := "",
                   tool_calls := [{ id := "call_1", name := "search", args := "news" }] }],
    plan := some "search the web", worker_output := some "",
    evaluation := none, redo := none }

/-- A state with plan "same plan" and a one-message history. -/
def s6a : TState :=
  { messages := [{ role := "user", content := "history A" }],
    plan := some "same plan", worker_output := none,
    evaluation := none, redo := none }

/-- A state with the same plan as `s6a` but a different, longer history. -/
def s6b : TState :=
  { messages := [{ role := "user", content := "history B" },
                 { role := "assistant", content := "more" }],
    plan := some "same plan", worker_output := none,
    evaluation := none, redo := none }

/-- A state as seen by the evaluator: the user asked a question, the
worker appended its draft answer, `worker_output` holds the same draft. -/
def s7State : TState :=
  { messages := [{ role := "user", content := "What is the capital of France?" },
                 { role := "assistant", content := "Paris" }],
    plan := some "answer the question", worker_output := some "Paris",
    evaluation := none, redo := none }

/-! ## Helper lemmas about the run model -/

/-- Every node extends the message history by a (possibly empty) suffix. -/
theorem execNode_messages_extend (o : Oracles) (node : Node) (s : TState) :
    ∃ t, (execNode o node s).messages = s.messages ++ t := by
  cases node
  case start => exact ⟨[], by simp [execNode]⟩
  case plannerN => exact ⟨[], by simp [execNode, planner]⟩
  case workerN => exact ⟨[o.workerC (workerInput s)], by simp [execNode, worker]⟩
  case toolsN =>
    exact ⟨((lastMsgD s.messages).tool_calls).map
      (fun tc => { role := "tool", content := o.toolImpl tc.name tc.args }),
      by simp [execNode, toolsNode]⟩
  case evaluatorN => exact ⟨[], by simp [execNode, evaluator]⟩
  case fin => exact ⟨[], by simp [execNode]⟩

/-- A successful run extends the initial message history by a suffix. -/
theorem runFrom_ok_extends (o : Oracles) :
    ∀ (fuel : Nat) (node : Node) (s s2 : TState),
      (runFrom o fuel node s).fst = Except.ok s2 →
      ∃ t, s2.messages = s.messages ++ t := by
  intro fuel
  induction fuel with
  | zero =>
    intro node s s2 h
    cases node <;> simp [runFrom] at h
    exact ⟨[], by simp [h]⟩
  | succ n ih =>
    intro node s s2 h
    cases node
    case fin =>
      simp [runFrom] at h
      exact ⟨[], by simp [h]⟩
    all_goals
      simp only [runFrom] at h
      obtain ⟨t1, ht1⟩ := execNode_messages_extend o _ s
      obtain ⟨t2, ht2⟩ := ih _ _ _ h
      exact ⟨t1 ++ t2, by rw [ht2, ht1, List.append_assoc]⟩

/-- The number of node executions never exceeds the budget. -/
theorem runFrom_steps_le (o : Oracles) :
    ∀ (fuel : Nat) (node : Node) (s : TState),
      (runFrom o fuel node s).snd ≤ fuel := by
  intro fuel
  induction fuel with
  | zero => intro node s; cases node <;> simp [runFrom]
  | succ n ih =>
    intro node s
    cases node
    case fin => simp [runFrom]
    all_goals
      simp only [runFrom]
      exact Nat.succ_le_succ (ih _ _)

/-- The decision rule fires exactly on the normalized text "retry". -/
theorem evalVerdict_fst_iff (s : String) :
    (evalVerdict s).fst = true ↔ pyLower (pyStrip s) = "retry" := by
  by_cases h : pyLower (pyStrip s) = "retry" <;> simp [evalVerdict, h]

/-- Under an engine whose evaluator output always normalizes to "retry",
every run starting anywhere but END exhausts its whole budget and aborts
with the recursion-limit error. -/
theorem runFrom_retry_all (o : Oracles)
    (Hretry : ∀ pr, pyLower (pyStrip (o.evalC pr)) = "retry") :
    ∀ (fuel : Nat) (node : Node) (s : TState), node ≠ Node.fin →
      runFrom o fuel node s = (Except.error RunError.recursionLimit, fuel) := by
  intro fuel
  induction fuel with
  | zero =>
    intro node s hn
    cases node <;> simp [runFrom] at hn ⊢
  | succ n ih =>
    intro node s hn
    cases node
    case fin => exact absurd rfl hn
    case start =>
      have h := ih Node.plannerN (execNode o Node.start s) (by decide)
      simp [runFrom, seqNext, h]
    case plannerN =>
      have h := ih Node.workerN (execNode o Node.plannerN s) (by decide)
      simp [runFrom, seqNext, h]
    case workerN =>
      have hwc : workerCondNext (execNode o Node.workerN s) ≠ Node.fin := by
        unfold workerCondNext; split <;> decide
      have h := ih _ (execNode o Node.workerN s) hwc
      simp [runFrom, seqNext, h]
    case toolsN =>
      have h := ih Node.workerN (execNode o Node.toolsN s) (by decide)
      simp [runFrom, seqNext, h]
    case evaluatorN =>
      have hv : (evalVerdict (o.evalC (evaluatorInput s))).fst = true :=
        (evalVerdict_fst_iff _).mpr (Hretry (evaluatorInput s))
      have hnext : seqNext Node.evaluatorN (execNode o Node.evaluatorN s) = Node.workerN := by
        simp [seqNext, evaluatorNext, evaluatorRoute, execNode, evaluator, hv]
      have h := ih Node.workerN (execNode o Node.evaluatorN s) (by decide)
      simp [runFrom, hnext, h]

/-- In a successful run of a turn in which the worker never requests tool
calls, the final state has `redo = some false` and its last message is the
message the tool-bound engine produced for the worker. -/
theorem runFrom_ok_last_worker (o : Oracles)
    (Hnt : ∀ pr, (o.workerC pr).tool_calls = []) :
    ∀ (fuel : Nat) (node : Node) (s s2 : TState), node ≠ Node.fin →
      (node = Node.evaluatorN → ∃ pr, lastMsgD s.messages = o.workerC pr) →
      (runFrom o fuel node s).fst = Except.ok s2 →
      s2.redo = some false ∧ ∃ pr, lastMsgD s2.messages = o.workerC pr := by
  intro fuel
  induction fuel with
  | zero =>
    intro node s s2 hn _ h
    cases node
    case fin => exact absurd rfl hn
    all_goals simp [runFrom] at h
  | succ n ih =>
    intro node s s2 hn hev h
    cases node
    case fin => exact absurd rfl hn
    case start =>
      simp [runFrom, seqNext, execNode] at h
      exact ih Node.plannerN s s2 (by decide) (fun hq => absurd hq (by decide)) h
    case plannerN =>
      simp [runFrom, seqNext, execNode] at h
      exact ih Node.workerN (planner o s) s2 (by decide) (fun hq => absurd hq (by decide)) h
    case toolsN =>
      simp [runFrom, seqNext, execNode] at h
      exact ih Node.workerN (toolsNode o s) s2 (by decide) (fun hq => absurd hq (by decide)) h
    case workerN =>
      have hlast : lastMsgD (worker o s).messages = o.workerC (workerInput s) := by
        simp [worker, lastMsgD]
      have hcond : workerCondNext (worker o s) = Node.evaluatorN := by
        simp [workerCondNext, tools_condition, hlast, Hnt]
      simp [runFrom, seqNext, execNode, hcond] at h
      exact ih Node.evaluatorN (worker o s) s2 (by decide)
        (fun _ => ⟨workerInput s, hlast⟩) h
    case evaluatorN =>
      obtain ⟨pr, hpr⟩ := hev rfl
      by_cases hv : (evalVerdict (o.evalC (evaluatorInput s))).fst = true
      · have hnext : seqNext Node.evaluatorN (execNode o Node.evaluatorN s) = Node.workerN := by
          simp [seqNext, evaluatorNext, evaluatorRoute, execNode, evaluator, hv]
        simp [runFrom, hnext] at h
        exact ih Node.workerN (execNode o Node.evaluatorN s) s2 (by decide)
          (fun hq => absurd hq (by decide)) h
      · rw [Bool.not_eq_true] at hv
        have hnext : seqNext Node.evaluatorN (execNode o Node.evaluatorN s) = Node.fin := by
          simp [seqNext, evaluatorNext, evaluatorRoute, execNode, evaluator, hv]
        simp [runFrom, hnext] at h
        refine ⟨?_, ⟨pr, ?_⟩⟩
        · rw [← h]; simp [execNode, evaluator, hv]
        · rw [← h]; simpa [execNode, evaluator, lastMsgD] using hpr

/-! ## Claims -/

/-- Claim C1, counterexample: the claim states that the raw evaluator
outputs "Retry" and " retry " yield `redo = false`, but the code first
strips and lower-cases, so both normalize to "retry" and yield
`redo = true`. -/
theorem c1_counterexample :
    (evalVerdict "Retry").fst = true ∧ (evalVerdict " retry ").fst = true := by
  decide

/-- Claim C1 (amended): `redo = true` iff the raw engine output, after
trimming surrounding whitespace and lower-casing, equals exactly "retry";
hence "Retry" and " retry " yield `redo = true`, while "retry.",
"not sure" and the empty string yield `redo = false`. -/
theorem c1_evaluator_decision :
    (∀ s : String, (evalVerdict s).fst = true ↔ pyLower (pyStrip s) = "retry") ∧
    (evalVerdict "Retry").fst = true ∧ (evalVerdict " retry ").fst = true ∧
    (evalVerdict "retry.").fst = false ∧ (evalVerdict "not sure").fst = false ∧
    (evalVerdict "").fst = false ∧ (evalVerdict "retry").fst = true :=
  ⟨evalVerdict_fst_iff, by decide, by decide, by decide, by decide, by decide, by decide⟩

/-- Claim C2, code bug: on a state whose latest assistant message carries a
pending tool-call request the conditional edge routes to the tool node,
but the unconditional `add_edge("worker", "evaluator")` of src/day4.py
line 161 additionally schedules the evaluator, so the evaluator is NOT
reached only on tool-free worker messages as the claim states. -/
theorem c2_worker_fanout_bug :
    tools_condition s2ToolCall = "tools" ∧
    workerCondNext s2ToolCall = Node.toolsN ∧
    workerSuccessors s2ToolCall = [Node.toolsN, Node.evaluatorN] ∧
    Node.evaluatorN ∈ workerSuccessors s2ToolCall := by
  decide

/-- Claim C3: the per-turn step budget is the configured
`recursion_limit = 100`; a turn whose evaluator output always normalizes
to "retry" (and whose worker requests no tool calls, where the sequential
run model is exact) aborts with the recursion-limit error after exactly
the budgeted number of node executions, and no run ever exceeds its
budget. -/
theorem c3_recursion_limit_abort (o : Oracles) (u : String) (s : TState)
    (Hretry : ∀ pr, pyLower (pyStrip (o.evalC pr)) = "retry")
    (_Hnt : ∀ pr, (o.workerC pr).tool_calls = []) :
    (invokeTurn o recursion_limit u s).fst = Except.error RunError.recursionLimit ∧
    (invokeTurn o recursion_limit u s).snd = recursion_limit ∧
    recursion_limit = 100 ∧
    ∀ (fuel : Nat) (node : Node) (s0 : TState), (runFrom o fuel node s0).snd ≤ fuel := by
  have h := runFrom_retry_all o Hretry recursion_limit Node.plannerN (initUpdate s u) (by decide)
  exact ⟨by simp [invokeTurn, h], by simp [invokeTurn, h], rfl, runFrom_steps_le o⟩

/-- Witness for C3: the constant always-"retry" engine aborts the turn
with the recursion-limit error after exactly the configured budget. -/
theorem c3_witness :
    (invokeTurn oRetry recursion_limit "hi" emptyState).fst =
      Except.error RunError.recursionLimit ∧
    (invokeTurn oRetry recursion_limit "hi" emptyState).snd = recursion_limit := by
  have h := c3_recursion_limit_abort oRetry "hi" emptyState
    (fun pr => rfl) (fun pr => rfl)
  exact ⟨h.1, h.2.1⟩

/-- Claim C4: every node of the graph only appends to the message history,
and a successful `invoke` turn extends the stored history by a suffix, so
sequential turns never shrink the stored message count. -/
theorem c4_append_only :
    (∀ (o : Oracles) (node : Node) (s : TState),
      ∃ t, (execNode o node s).messages = s.messages ++ t) ∧
    (∀ (o : Oracles) (limit : Nat) (u : String) (s s2 : TState),
      (invokeTurn o limit u s).fst = Except.ok s2 →
      (∃ t, s2.messages = s.messages ++ t) ∧
      s.messages.length ≤ s2.messages.length) := by
  refine ⟨execNode_messages_extend, ?_⟩
  intro o limit u s s2 h
  obtain ⟨t, ht⟩ := runFrom_ok_extends o limit Node.plannerN (initUpdate s u) s2 h
  have ht2 : s2.messages = s.messages ++ ({ role := "user", content := u } :: t) := by
    simpa [initUpdate] using ht
  exact ⟨⟨_, ht2⟩, by rw [ht2]; simp⟩

/-- Witness for C4: a successful concrete turn appends to the empty
history and does not shrink it. -/
theorem c4_witness :
    (∃ t, s4Final.messages = emptyState.messages ++ t) ∧
    emptyState.messages.length ≤ s4Final.messages.length :=
  c4_append_only.2 oOk 100 "hi" emptyState s4Final (by rfl)

/-- Claim C5: the evaluator changes neither `plan` nor the message
history; its conditional edge routes to the worker exactly when
`redo = some true` and to END otherwise; and a successfully terminating
turn (worker requesting no tool calls, where the sequential model is
exact) ends with `redo = some false` and hands the caller the content of
the message the tool-bound engine produced for the worker, verbatim. -/
theorem c5_evaluator_routing :
    (∀ (o : Oracles) (s : TState),
      (evaluator o s).plan = s.plan ∧ (evaluator o s).messages = s.messages) ∧
    (∀ s : TState, (evaluatorNext s = Node.workerN ↔ s.redo = some true) ∧
      (evaluatorNext s = Node.fin ↔ ¬ s.redo = some true)) ∧
    (∀ (o : Oracles) (u : String) (s s2 : TState),
      (∀ pr, (o.workerC pr).tool_calls = []) →
      (invokeTurn o recursion_limit u s).fst = Except.ok s2 →
      s2.redo = some false ∧
      ∃ pr, lastMsgD s2.messages = o.workerC pr ∧
        gradio_chat o s u = Except.ok (o.workerC pr).content) := by
  refine ⟨fun o s => ⟨rfl, rfl⟩, ?_, ?_⟩
  · intro s
    constructor
    · unfold evaluatorNext evaluatorRoute
      by_cases h : s.redo = some true <;> simp [h]
    · unfold evaluatorNext evaluatorRoute
      by_cases h : s.redo = some true <;> simp [h]
  · intro o u s s2 Hnt h
    obtain ⟨hredo, pr, hpr⟩ := runFrom_ok_last_worker o Hnt recursion_limit
      Node.plannerN (initUpdate s u) s2 (by decide) (fun hq => absurd hq (by decide)) h
    refine ⟨hredo, pr, hpr, ?_⟩
    simp only [gradio_chat, h]
    rw [hpr]

/-- Witness for C5: a successfully terminating concrete turn ends with
`redo = some false` and returns the worker message content verbatim. -/
theorem c5_witness :
    s5Final.redo = some false ∧
    ∃ pr, lastMsgD s5Final.messages = oOk.workerC pr ∧
      gradio_chat oOk emptyState "hello" = Except.ok (oOk.workerC pr).content :=
  c5_evaluator_routing.2.2 oOk "hello" emptyState s5Final (fun _ => rfl) (by rfl)

/-- Claim C6, counterexample: two states with the same plan but different
histories hand the tool-bound engine the SAME worker input, because the
worker prompt (src/day4.py lines 94-97) is built from the plan alone. -/
theorem c6_counterexample :
    s6a.plan = s6b.plan ∧ s6a.messages ≠ s6b.messages ∧
    workerInput s6a = workerInput s6b := by
  decide

/-- Claim C6 (amended): on every invocation the worker request to the
reasoning engine is a function of the current plan text only; the message
history does not enter, so states with equal plans yield identical worker
inputs and identical worker outputs. -/
theorem c6_worker_input_plan_only (s t : TState) (h : s.plan = t.plan) :
    workerInput s = workerInput t ∧
    ∀ o : Oracles, (worker o s).worker_output = (worker o t).worker_output := by
  constructor
  · unfold workerInput
    rw [h]
  · intro o
    simp [worker, workerInput, h]

/-- Witness for C6 (amended) at the concrete pair of states with equal
plans and different histories. -/
theorem c6_witness : workerInput s6a = workerInput s6b :=
  (c6_worker_input_plan_only s6a s6b rfl).1

set_option maxRecDepth 8192 in
/-- Claim C7, code bug: at a state where the user asked a question and the
worker appended its draft, the evaluator engine input carries the content
of `messages[-1]` — the worker message — in its "User asked:" slot, and
the original user question does not occur anywhere in the evaluator
input. -/
theorem c7_evaluator_reads_last_message :
    evaluatorInput s7State = evaluatorPrompt "Paris" "Paris" ∧
    (s7State.messages.headD defaultMsg).content = "What is the capital of France?" ∧
    containsStr (evaluatorInput s7State) "What is the capital of France?" = false ∧
    containsStr (evaluatorInput s7State) "User asked: Paris" = true := by
  decide

/-- Claim C8: `resolve_news_url` always returns either the url of a
registered news site — exactly when the lower-cased query contains one of
the registered keys — or the exact string "UNKNOWN", and it is total. -/
theorem c8_resolve_news_url_total (q : String) :
    (resolve_news_url q = "UNKNOWN" ∨ resolve_news_url q ∈ NEWS_SITES.map Prod.snd) ∧
    ((∃ kv, kv ∈ NEWS_SITES ∧ containsStr (pyLower q) kv.fst = true) →
      resolve_news_url q ∈ NEWS_SITES.map Prod.snd) ∧
    ((∀ kv, kv ∈ NEWS_SITES → containsStr (pyLower q) kv.fst = false) →
      resolve_news_url q = "UNKNOWN") := by
  cases hfind : NEWS_SITES.find? (fun kv => containsStr (pyLower q) kv.fst) with
  | none =>
    have hnone := List.find?_eq_none.mp hfind
    refine ⟨Or.inl ?_, ?_, ?_⟩
    · simp [resolve_news_url, hfind]
    · rintro ⟨kv, hmem, hc⟩
      exact absurd hc (hnone kv hmem)
    · intro _
      simp [resolve_news_url, hfind]
  | some kv =>
    have hmem := List.mem_of_find?_eq_some hfind
    have hurl : resolve_news_url q = kv.snd := by simp [resolve_news_url, hfind]
    have hin : kv.snd ∈ NEWS_SITES.map Prod.snd := List.mem_map.mpr ⟨kv, hmem, rfl⟩
    refine ⟨Or.inr (by rw [hurl]; exact hin), fun _ => by rw [hurl]; exact hin, ?_⟩
    intro hall
    have hp := List.find?_some hfind
    rw [hall kv hmem] at hp
    exact absurd hp (by simp)

/-- Witness for C8: a BBC query resolves to a registered url and an
unrelated query resolves to "UNKNOWN". -/
theorem c8_witness :
    resolve_news_url "Show me BBC News today" ∈ NEWS_SITES.map Prod.snd ∧
    resolve_news_url "hello world" = "UNKNOWN" :=
  ⟨(c8_resolve_news_url_total "Show me BBC News today").2.1
      ⟨("bbc", "https://www.bbc.com/news"), by decide, by decide⟩,
   (c8_resolve_news_url_total "hello world").2.2 (by decide)⟩

/-- Claim C9: `web_browse` is total on every navigation outcome — it
returns the page HTML on success and the descriptive text
"Playwright error: ..." on any exception (timeouts included) instead of
raising — and the navigation timeout passed to goto is 20000 ms,
i.e. 20 units of 1000 ms. -/
theorem c9_web_browse_total :
    (∀ html : String, web_browse (Except.ok html) = html) ∧
    (∀ e : String, web_browse (Except.error e) = "Playwright error: " ++ e) ∧
    web_browse (Except.error "Timeout 20000ms exceeded.") =
      "Playwright error: Timeout 20000ms exceeded." ∧
    goto_timeout_ms = 20000 ∧ goto_timeout_ms = 20 * 1000 :=
  ⟨fun _ => rfl, fun _ => rfl, rfl, rfl, rfl⟩

/-- Claim C10: whenever the underlying HTTP POST returns, `push_tool`
(src/day4.py) returns the fixed confirmation "Push notification sent."
and `push` (src/logger.py) returns "success", independently of the
response, which is never inspected. -/
theorem c10_push_fixed_confirmation :
    ∀ (post post2 : String → HttpResponse) (text text2 : String),
      push_tool post text = "Push notification sent." ∧
      push_tool post text = push_tool post2 text2 ∧
      push post text = "success" ∧
      push post text = push post2 text2 :=
  fun _ _ _ _ => ⟨rfl, rfl, rfl, rfl⟩

end LangGraphStart
